import Mathlib

/-
Verification of the TangoMango223/MMAI5040_TP_Model repository: a shallow
embedding in Lean 4 of the pure fragments of the RAG safety-plan pipeline
(src/main.py, src/safety_plan_generator.py, src/2_ingestion.py and the
crawler in src/pipeline_initialization_code), together with theorems
settling the specification claims about formatting, source deduplication,
chunking, error handling and crawler retry behaviour.
-/

/-! ## String-containment machinery

Python substring containment (the infix relation on character sequences)
is modelled on the character data of Lean strings. -/

/-- p occurs as a contiguous substring of s. -/
def substrOf (p s : String) : Prop :=
  ∃ a b : List Char, s.data = a ++ p.data ++ b

/-- Executable scan for an occurrence of pattern p inside a character list. -/
def containsSub (p : List Char) : List Char → Bool
  | [] => p.isPrefixOf []
  | c :: rest => p.isPrefixOf (c :: rest) || containsSub p rest

/-! ## The safety-plan generator (src/main.py, generate_safety_plan)

The generator's effectful steps (embedding, vector retrieval, the two
chat-model calls) are external services; the pure fragments embedded here
are exactly the string computations of src/main.py: the Step-1 input
formatting (lines 399-401 and 478-489) and the final assembly lambda
(lines 454-476). -/

/-- A chunk returned by the vector-store retriever, with the metadata the
assembly step reads: doc.metadata.get('title', 'Untitled') is modelled by
an optional title, and doc.metadata['source'] by a source field (every
chunk written by the indexer carries a 'source' key). -/
structure RetrievedDoc where
  page_content : String
  title : Option String
  source : String
deriving DecidableEq

/-- The (title, source) citation pair the assembly reads off one retrieved
chunk: (doc.metadata.get('title', 'Untitled'), doc.metadata['source']). -/
def sourcePair (d : RetrievedDoc) : String × String :=
  (d.title.getD "Untitled", d.source)

/-- The Python set comprehension over result["context"]:
{(doc.metadata.get('title', 'Untitled'), doc.metadata['source']) for doc in ...}.
A Python set is iterated in an unspecified order; it is modelled as a
duplicate-free list, which is faithful for the membership and
multiplicity properties proved below (both are order-independent). -/
def uniqueSources (ctx : List RetrievedDoc) : List (String × String) :=
  (ctx.map sourcePair).dedup

/-- One rendered line of the source list: f"- {title} ({source})". -/
def renderSourceLine (p : String × String) : String :=
  "- " ++ p.1 ++ " (" ++ p.2 ++ ")"

/-- chr(10).join(f"- {title} ({source})" for title, source in unique_sources). -/
def renderSources (ps : List (String × String)) : String :=
  String.intercalate "\n" (ps.map renderSourceLine)

/-- formatted_crime_concerns = ", ".join(crime_type)   (src/main.py line 400). -/
def formattedCrimeConcerns (crime_type : List String) : String :=
  String.intercalate ", " crime_type

/-- formatted_context = "\n".join(user_context)   (src/main.py line 401). -/
def formattedContext (user_context : List String) : String :=
  String.intercalate "\n" user_context

/-- The Step-1 formatted query: the f-string at src/main.py lines 480-489,
byte-for-byte (the source lines are indented by eight spaces inside the
triple-quoted literal, and the blank separator lines carry eight spaces). -/
def formattedUserInput (neighbourhood : String) (crime_type user_context : List String) : String :=
  "\n        LOCATION: " ++ neighbourhood ++
  "\n        \n        SAFETY CONCERNS:\n        - " ++ formattedCrimeConcerns crime_type ++
  "\n        \n        ADDITIONAL USER CONTEXT:\n        " ++ formattedContext user_context ++
  "\n        "

/-- The final assembly: the f-string of the lambda at src/main.py lines
455-475 building final_plan from the neighbourhood, the formatted crime
concerns, the Step-4 plan body x["plan"] and the retrieved context
x["context"] (twelve-space indentation, byte-for-byte). -/
def finalPlan (neighbourhood : String) (crime_type : List String)
    (plan : String) (ctx : List RetrievedDoc) : String :=
  "\n            CITY OF TORONTO SERVICE SAFETY PLAN\n            Neighbourhood: " ++
  neighbourhood ++
  "\n            Primary Concerns: " ++ formattedCrimeConcerns crime_type ++
  "\n\n            " ++ plan ++
  "\n\n            Sources Consulted:\n            " ++ renderSources (uniqueSources ctx) ++
  "\n            \n            ----\n            \n            Note: This safety plan is generated based on Toronto Police Service resources and general \n            safety guidelines. For emergencies, always call 911. For non-emergency police matters, \n            call 416-808-2222.\n            "

/-! ## The single-chain generator (src/safety_plan_generator.py, generate_safety_plan) -/

/-- Python str.strip() whitespace test, restricted to the ASCII whitespace
characters (space, tab, newline, carriage return, vertical tab, form feed);
the source strings involved contain no other whitespace. -/
def pyIsSpace (c : Char) : Bool :=
  c = ' ' || c = '\t' || c = '\n' || c = '\r' || c = '\x0b' || c = '\x0c'

/-- Python str.strip(): drop whitespace from both ends. -/
def pyStrip (s : List Char) : List Char :=
  ((s.dropWhile pyIsSpace).reverse.dropWhile pyIsSpace).reverse

/-- String-level wrapper of pyStrip. -/
def pyStripStr (s : String) : String :=
  String.mk (pyStrip s.data)

/-- Python s.split(sep)[0] for a non-empty separator: the prefix of s
strictly before the first occurrence of sep, or all of s when sep does
not occur. -/
def splitFirstL (sep : List Char) : List Char → List Char
  | [] => []
  | c :: rest => if sep.isPrefixOf (c :: rest) then [] else c :: splitFirstL sep rest

/-- The truncation marker used at src/safety_plan_generator.py line 156. -/
def sourcesMarker : String := "Sources Consulted:"

/-- result["answer"].split("Sources Consulted:")[0].strip()
(src/safety_plan_generator.py line 156): the plan body embedded in the
single-chain response. -/
def spgPlanBody (answer : String) : String :=
  String.mk (pyStrip (splitFirstL sourcesMarker.data answer.data))

/-- "\n".join([f"Q: {q}\nA: {a}" for q, a in user_context.items()])
(src/safety_plan_generator.py line 100); the dict is modelled as an
association list in iteration order. -/
def spgFormattedContext (user_context : List (String × String)) : String :=
  String.intercalate "\n" (user_context.map fun qa => "Q: " ++ qa.1 ++ "\nA: " ++ qa.2)

/-- The single-chain formatted input (src/safety_plan_generator.py lines
129-137, four-space indentation, byte-for-byte); note its third header is
"ADDITIONAL CONTEXT:", not "ADDITIONAL USER CONTEXT:". -/
def spgFormattedInput (neighbourhood : String) (crime_concerns : List String)
    (user_context : List (String × String)) : String :=
  "\n    LOCATION: " ++ neighbourhood ++
  "\n    \n    SAFETY CONCERNS:\n    - " ++ String.intercalate ", " crime_concerns ++
  "\n    \n    ADDITIONAL CONTEXT:\n    " ++ spgFormattedContext user_context ++
  "\n    "

/-- The single-chain final assembly plan_string (src/safety_plan_generator.py
lines 151-164, four-space indentation, byte-for-byte). -/
def spgPlanString (neighbourhood : String) (crime_concerns : List String)
    (answer : String) (ctx : List RetrievedDoc) : String :=
  "\n    CITY OF TORONTO SERVICE SAFETY PLAN\n    Neighbourhood: " ++ neighbourhood ++
  "\n    Primary Concerns: " ++ String.intercalate ", " crime_concerns ++
  "\n\n    " ++ spgPlanBody answer ++
  "\n\n    Sources Consulted:\n    " ++ renderSources (uniqueSources ctx) ++
  "\n    \n    Note: This safety plan is generated based on Toronto Police Service resources and general \n    safety guidelines. For emergencies, always call 911. For non-emergency police matters, \n    call 416-808-2222.\n    "

/-- The Step-1 formatting as executed inside the running process: the
enclosing Python function can observe process state (os.environ, module
globals) and any randomness source, so that state is passed explicitly
here; the source lines 399-401 and 478-489 of src/main.py reference only
the three request fields, so the state parameters are never consulted. -/
def formattedUserInputInProcess (env : String → Option String) (rngSeed : Nat)
    (neighbourhood : String) (crime_type user_context : List String) : String :=
  formattedUserInput neighbourhood crime_type user_context

/-! ## The indexer (src/2_ingestion.py) -/

/-- The metadata object of one crawled corpus item, with the three keys
load_json_data reads (each possibly absent). -/
structure RawMetadata where
  sourceURL : Option String
  url : Option String
  title : Option String
deriving DecidableEq

/-- One item of a crawl batch: the markdown and metadata fields may each
be absent (a malformed record). -/
structure RawItem where
  markdown : Option String
  metadata : Option RawMetadata
deriving DecidableEq

/-- One batch object of the corpus JSON array; the data array may be absent. -/
structure CrawlBatch where
  data : Option (List RawItem)
deriving DecidableEq

/-- The LangChain Document built by load_json_data: page_content plus the
source / text / title metadata written at src/2_ingestion.py lines 38-45. -/
structure IngestDoc where
  page_content : String
  source : String
  text : String
  title : String
deriving DecidableEq

/-- The Document constructed for one well-formed item:
source = metadata.get('sourceURL', metadata.get('url', '')),
text = markdown[:1000], title = metadata.get('title', ''). -/
def mkIngestDoc (md : String) (meta : RawMetadata) : IngestDoc :=
  { page_content := md
    source := meta.sourceURL.getD (meta.url.getD "")
    text := String.mk (md.data.take 1000)
    title := meta.title.getD "" }

/-- An item is well-formed when it has both a markdown and a metadata field
(the guard at src/2_ingestion.py line 33). -/
def wellFormed (item : RawItem) : Bool :=
  item.markdown.isSome && item.metadata.isSome

/-- load_json_data (src/2_ingestion.py lines 23-49): iterate the batches,
skip a batch without a data field, and inside a batch keep exactly the
items having both markdown and metadata. -/
def load_json_data (batches : List CrawlBatch) : List IngestDoc :=
  batches.flatMap fun batch =>
    match batch.data with
    | none => []
    | some items =>
      items.filterMap fun item =>
        match item.markdown, item.metadata with
        | some md, some meta => some (mkIngestDoc md meta)
        | _, _ => none

/-- chunk_size=1000 configured at src/2_ingestion.py line 57. -/
def chunk_size : Nat := 1000

/-- chunk_overlap=200 configured at src/2_ingestion.py line 58. -/
def chunk_overlap : Nat := 200

/-- Modelled from the spec: the window splitting performed by the
third-party RecursiveCharacterTextSplitter configured in text_splitter
(src/2_ingestion.py lines 51-66); the library's own code is not part of
this repository, so the splitting is modelled from the spec's words as
contiguous sliding windows of at most chunk_size characters in which each
window after the first starts chunk_size - chunk_overlap characters after
its predecessor. -/
def splitWindows (s : List Char) : List (List Char) :=
  if h : s.length ≤ chunk_size then [s]
  else s.take chunk_size :: splitWindows (s.drop (chunk_size - chunk_overlap))
termination_by s.length
decreasing_by
  simp only [List.length_drop, chunk_size, chunk_overlap] at *
  omega

/-- Concatenation of the windows with the overlapping prefix of every
window after the first removed. -/
def reconstruct (chunks : List (List Char)) : List Char :=
  match chunks with
  | [] => []
  | c :: rest => c ++ (rest.map fun w => w.drop chunk_overlap).flatten

/-- text_splitter (src/2_ingestion.py lines 51-66): split every document
into windows, each chunk keeping the parent document's metadata. -/
def text_splitter (docs : List IngestDoc) : List IngestDoc :=
  docs.flatMap fun d =>
    (splitWindows d.page_content.data).map fun w => { d with page_content := String.mk w }

/-! ## Startup configuration checks (src/2_ingestion.py main, src/safety_plan_generator.py init) -/

/-- Observable outcome of a program run up to its first failure: the
network requests issued, and the error raised (if any). -/
structure RunTrace where
  networkCalls : List String
  error : Option String
deriving DecidableEq

/-- main of src/2_ingestion.py (lines 68-97) as a trace function of the
process environment and the corpus file contents. The Pinecone client
constructor at line 75 and the logging lines only build local objects and
issue no network request; the first network traffic is the embedding and
upsert performed by PineconeVectorStore.from_documents at lines 92-96.
Python's falsiness check "if not index_name" fires both when the variable
is absent and when it is empty. -/
def ingestMain (env : String → Option String) (corpus : List CrawlBatch) : RunTrace :=
  match env "PINECONE_INDEX_NAME" with
  | none =>
    { networkCalls := []
      error := some "PINECONE_INDEX_NAME not found in environment variables" }
  | some indexName =>
    if indexName = "" then
      { networkCalls := []
        error := some "PINECONE_INDEX_NAME not found in environment variables" }
    else
      let docs := load_json_data corpus
      let chunks := text_splitter docs
      { networkCalls := ["OpenAIEmbeddings.embed_documents", "PineconeVectorStore.upsert"]
        error := none }

/-- Component initialization of generate_safety_plan
(src/safety_plan_generator.py lines 102-110 and src/main.py lines
403-408): the OpenAIEmbeddings constructor builds a client without network
traffic, then os.environ["PINECONE_INDEX_NAME"] is read; when the variable
is absent Python raises KeyError before any network request is made. -/
def generatorInit (env : String → Option String) : RunTrace :=
  match env "PINECONE_INDEX_NAME" with
  | none => { networkCalls := [], error := some "KeyError: PINECONE_INDEX_NAME" }
  | some _ => { networkCalls := [], error := none }

/-! ## The crawler retry policy
(src/pipeline_initialization_code/Original pipeline/1_informationretreival.py) -/

/-- Outcome of one call to the external crawling service for one URL. -/
inductive CrawlOutcome (α : Type) where
  | ok (result : α)
  | err (msg : String)

/-- Value of a decimal digit run, as Python int() of the matched group. -/
def digitsVal (ds : List Char) : Nat :=
  ds.foldl (fun n c => 10 * n + (c.toNat - 48)) 0

/-- Match of the regex "retry after (\d+)s" anchored at the start of cs:
the literal text, then a maximal non-empty digit run, then the letter s. -/
def matchRetryAt (cs : List Char) : Option Nat :=
  if ("retry after ".data).isPrefixOf cs then
    let rest := cs.drop ("retry after ".data).length
    let ds := rest.takeWhile Char.isDigit
    if ds.isEmpty then none
    else if (rest.drop ds.length).head? = some 's' then some (digitsVal ds)
    else none
  else none

/-- re.search(r"retry after (\d+)s", msg): first match over all start
positions, scanning left to right. -/
def findRetryAfter : List Char → Option Nat
  | [] => none
  | c :: rest =>
    match matchRetryAt (c :: rest) with
    | some n => some n
    | none => findRetryAfter rest

/-- extract_wait_time (1_informationretreival.py lines 119-124): the
matched number of seconds, or a default of 60 when the message has no
"retry after Ns" fragment. -/
def extract_wait_time (msg : String) : Nat :=
  (findRetryAfter msg.data).getD 60

/-- Python "429" in str(e): substring test marking a rate-limit error. -/
def has429 (msg : String) : Bool :=
  containsSub "429".data msg.data

/-- max_retries=3 (1_informationretreival.py line 126). -/
def max_retries : Nat := 3

/-- Result of crawl_with_retry for one URL: how many crawl attempts were
made, the sleep durations performed between attempts (in seconds), and
the crawl result (none when the URL is given up on). -/
structure RetryOutcome (α : Type) where
  attemptsMade : Nat
  sleeps : List Nat
  result : Option α
deriving DecidableEq

/-- The retry loop body of crawl_with_retry (lines 131-149), with
remaining iterations as fuel: a successful attempt returns immediately; a
429-type error with a later attempt still available sleeps
extract_wait_time(e) + 60 seconds (line 143 adds a 60-second buffer) and
retries; a 429-type error on the last attempt, or any other error,
returns None. -/
def crawlAttempts {α : Type} (oracle : Nat → CrawlOutcome α) :
    Nat → Nat → List Nat → RetryOutcome α
  | 0, attempt, sleeps => { attemptsMade := attempt, sleeps := sleeps, result := none }
  | r + 1, attempt, sleeps =>
    match oracle attempt with
    | .ok res => { attemptsMade := attempt + 1, sleeps := sleeps, result := some res }
    | .err m =>
      if has429 m then
        if 0 < r then
          crawlAttempts oracle r (attempt + 1) (sleeps ++ [extract_wait_time m + 60])
        else { attemptsMade := attempt + 1, sleeps := sleeps, result := none }
      else { attemptsMade := attempt + 1, sleeps := sleeps, result := none }

/-- crawl_with_retry(app, link, max_retries=3): the attempt at index i
calls the external service once, modelled by the oracle. -/
def crawl_with_retry {α : Type} (oracle : Nat → CrawlOutcome α) : RetryOutcome α :=
  crawlAttempts oracle max_retries 0 []

/-- The module-level crawl loop (lines 152-156): crawl every URL in order
and append only the non-None results. -/
def crawlLoop {α : Type} (oracles : List (Nat → CrawlOutcome α)) : List α :=
  oracles.filterMap fun o => (crawl_with_retry o).result

/-- Number of occurrences of a value in a list, counted with decidable
equality (the multiplicity of one citation pair in the rendered list). -/
def countOcc {α : Type} [DecidableEq α] (a : α) (l : List α) : Nat :=
  l.countP fun x => decide (x = a)

/-! ## Theorems -/

theorem containsSub_iff (p s : List Char) :
    containsSub p s = true ↔ ∃ a b : List Char, s = a ++ p ++ b := by
  induction s with
  | nil =>
    simp only [containsSub, List.isPrefixOf_iff_prefix]
    constructor
    · intro h
      rcases h with ⟨t, ht⟩
      exact ⟨[], t, by simp [← ht]⟩
    · rintro ⟨a, b, hab⟩
      have h0 : (a = [] ∧ p = []) ∧ b = [] := by
        simpa using List.append_eq_nil.mp hab.symm
      exact ⟨[], by simp [h0.1.2]⟩
  | cons c rest ih =>
    simp only [containsSub, Bool.or_eq_true, List.isPrefixOf_iff_prefix, ih]
    constructor
    · rintro (⟨t, ht⟩ | ⟨a, b, hab⟩)
      · exact ⟨[], t, by simp [← ht]⟩
      · exact ⟨c :: a, b, by simp [hab]⟩
    · rintro ⟨a, b, hab⟩
      cases a with
      | nil => exact Or.inl ⟨b, by simpa using hab.symm⟩
      | cons a0 a' =>
        right
        refine ⟨a', b, ?_⟩
        have h := hab
        simp only [List.cons_append, List.cons.injEq] at h
        simp [h.2]

theorem substrOf_of_scan (p s : String) (h : containsSub p.data s.data = true) :
    substrOf p s :=
  (containsSub_iff p.data s.data).mp h

theorem substrOf_appendL (p s t : String) (h : substrOf p s) : substrOf p (s ++ t) := by
  rcases h with ⟨a, b, hab⟩
  exact ⟨a, b ++ t.data, by simp [String.data_append, hab]⟩

theorem substrOf_appendR (p s t : String) (h : substrOf p t) : substrOf p (s ++ t) := by
  rcases h with ⟨a, b, hab⟩
  exact ⟨s.data ++ a, b, by simp [String.data_append, hab]⟩

/-- countOcc agrees with the library count at the decidable-equality
BEq instance. -/
theorem countOcc_eq_count {α : Type} [DecidableEq α] (a : α) (l : List α) :
    countOcc a l = @List.count α instBEqOfDecidableEq a l :=
  rfl

/-- Splitting the literal before the LOCATION header. -/
theorem dataSplit_location :
    ("\n        LOCATION: " : String).data =
      ("\n        " : String).data ++ ("LOCATION: " : String).data := by
  decide

/-- Splitting the literal before the SAFETY CONCERNS header. -/
theorem dataSplit_concerns :
    ("\n        \n        SAFETY CONCERNS:\n        - " : String).data =
      ("\n        \n        " : String).data ++
        ("SAFETY CONCERNS:\n        - " : String).data := by
  decide

/-- Splitting the literal before the ADDITIONAL USER CONTEXT header. -/
theorem dataSplit_context :
    ("\n        \n        ADDITIONAL USER CONTEXT:\n        " : String).data =
      ("\n        \n        " : String).data ++
        ("ADDITIONAL USER CONTEXT:\n        " : String).data := by
  decide

/-- C1: every (title, source_url) pair listed under the Sources Consulted
section of the assembled response (the rendered uniqueSources list, used
verbatim by both finalPlan and spgPlanString) is the metadata pair of a
chunk of that same request's retrieval result; the assembly never lists
an un-retrieved citation. -/
theorem sources_consulted_fidelity (ctx : List RetrievedDoc) (p : String × String)
    (hp : p ∈ uniqueSources ctx) : ∃ d ∈ ctx, sourcePair d = p := by
  have hmem : p ∈ ctx.map sourcePair := List.mem_dedup.mp hp
  rcases List.mem_map.mp hmem with ⟨d, hd, hdp⟩
  exact ⟨d, hd, hdp⟩

theorem sources_consulted_fidelity_witness :
    (("Guide", "https://tps.ca/g") ∈
        uniqueSources [⟨"chunk text", some "Guide", "https://tps.ca/g"⟩]) ∧
      ∃ d ∈ [(⟨"chunk text", some "Guide", "https://tps.ca/g"⟩ : RetrievedDoc)],
        sourcePair d = ("Guide", "https://tps.ca/g") :=
  ⟨by decide, sources_consulted_fidelity _ _ (by decide)⟩

/-- C2: when two retrieved chunks of one retrieval result share the same
(title, source_url) metadata pair, the Sources Consulted list of the
assembled response contains that pair exactly once. -/
theorem sources_consulted_dedup (ctx : List RetrievedDoc) (d₁ d₂ : RetrievedDoc)
    (h₁ : d₁ ∈ ctx) (h₂ : d₂ ∈ ctx) (hne : d₁ ≠ d₂)
    (hpair : sourcePair d₁ = sourcePair d₂) :
    countOcc (sourcePair d₁) (uniqueSources ctx) = 1 := by
  have hmem : sourcePair d₁ ∈ uniqueSources ctx :=
    List.mem_dedup.mpr (List.mem_map_of_mem sourcePair h₁)
  rw [countOcc_eq_count]
  exact List.count_eq_one_of_mem (List.nodup_dedup _) hmem

theorem sources_consulted_dedup_witness :
    countOcc (sourcePair ⟨"chunk one", some "Guide", "https://tps.ca/g"⟩)
      (uniqueSources [⟨"chunk one", some "Guide", "https://tps.ca/g"⟩,
        ⟨"chunk two", some "Guide", "https://tps.ca/g"⟩]) = 1 :=
  sources_consulted_dedup
    [⟨"chunk one", some "Guide", "https://tps.ca/g"⟩,
      ⟨"chunk two", some "Guide", "https://tps.ca/g"⟩]
    ⟨"chunk one", some "Guide", "https://tps.ca/g"⟩
    ⟨"chunk two", some "Guide", "https://tps.ca/g"⟩
    (by decide) (by decide) (by decide) (by decide)

/-- C3: for every request, the Step-1 formatted query contains the three
fixed section headers LOCATION, SAFETY CONCERNS and ADDITIONAL USER
CONTEXT, each followed by the corresponding request field: the
neighbourhood, the comma-joined crime concerns, and the joined
user-context lines. -/
theorem step1_formatted_query_headers (neighbourhood : String)
    (crime_type user_context : List String) :
    substrOf ("LOCATION: " ++ neighbourhood)
        (formattedUserInput neighbourhood crime_type user_context) ∧
      substrOf ("SAFETY CONCERNS:\n        - " ++ formattedCrimeConcerns crime_type)
        (formattedUserInput neighbourhood crime_type user_context) ∧
      substrOf ("ADDITIONAL USER CONTEXT:\n        " ++ formattedContext user_context)
        (formattedUserInput neighbourhood crime_type user_context) := by
  refine ⟨⟨("\n        " : String).data, ?_, ?_⟩, ⟨?_, ?_, ?_⟩, ⟨?_, ?_, ?_⟩⟩
  case _ =>
    exact ("\n        \n        SAFETY CONCERNS:\n        - " ++
      formattedCrimeConcerns crime_type ++
      "\n        \n        ADDITIONAL USER CONTEXT:\n        " ++
      formattedContext user_context ++ "\n        ").data
  case _ =>
    simp [formattedUserInput, String.data_append, dataSplit_location]
  case _ =>
    exact ("\n        LOCATION: " ++ neighbourhood ++ "\n        \n        ").data
  case _ =>
    exact ("\n        \n        ADDITIONAL USER CONTEXT:\n        " ++
      formattedContext user_context ++ "\n        ").data
  case _ =>
    simp [formattedUserInput, String.data_append, dataSplit_concerns]
  case _ =>
    exact ("\n        LOCATION: " ++ neighbourhood ++
      "\n        \n        SAFETY CONCERNS:\n        - " ++
      formattedCrimeConcerns crime_type ++ "\n        \n        ").data
  case _ =>
    exact ("\n        " : String).data
  case _ =>
    simp [formattedUserInput, String.data_append, dataSplit_context]

/-- C4: for the request with neighbourhood "Agincourt North (129)", crime
concerns ["Assault: Low", "Auto Theft: Medium"] and the parking-lighting
user context, whatever plan body and retrieval result the external
services produce, the assembled response's banner line contains
"Agincourt North (129)" and its Primary Concerns line contains both
"Assault: Low" and "Auto Theft: Medium" verbatim (the trailing newline
pins each quoted fragment to a single line of the response). -/
theorem example_request_banner (plan : String) (ctx : List RetrievedDoc) :
    substrOf "Neighbourhood: Agincourt North (129)\n"
        (finalPlan "Agincourt North (129)" ["Assault: Low", "Auto Theft: Medium"] plan ctx) ∧
      substrOf "Primary Concerns: Assault: Low, Auto Theft: Medium\n"
        (finalPlan "Agincourt North (129)" ["Assault: Low", "Auto Theft: Medium"] plan ctx) ∧
      substrOf "Assault: Low" "Primary Concerns: Assault: Low, Auto Theft: Medium\n" ∧
      substrOf "Auto Theft: Medium" "Primary Concerns: Assault: Low, Auto Theft: Medium\n" := by
  have hP1 : substrOf "Neighbourhood: Agincourt North (129)\n"
      ("\n            CITY OF TORONTO SERVICE SAFETY PLAN\n            Neighbourhood: " ++
        "Agincourt North (129)" ++ "\n            Primary Concerns: " ++
        formattedCrimeConcerns ["Assault: Low", "Auto Theft: Medium"] ++ "\n\n            ") :=
    substrOf_of_scan _ _ (by decide)
  have hP2 : substrOf "Primary Concerns: Assault: Low, Auto Theft: Medium\n"
      ("\n            CITY OF TORONTO SERVICE SAFETY PLAN\n            Neighbourhood: " ++
        "Agincourt North (129)" ++ "\n            Primary Concerns: " ++
        formattedCrimeConcerns ["Assault: Low", "Auto Theft: Medium"] ++ "\n\n            ") :=
    substrOf_of_scan _ _ (by decide)
  refine ⟨?_, ?_, substrOf_of_scan _ _ (by decide), substrOf_of_scan _ _ (by decide)⟩
  · simp only [finalPlan]
    exact substrOf_appendL _ _ _ (substrOf_appendL _ _ _ (substrOf_appendL _ _ _
      (substrOf_appendL _ _ _ hP1)))
  · simp only [finalPlan]
    exact substrOf_appendL _ _ _ (substrOf_appendL _ _ _ (substrOf_appendL _ _ _
      (substrOf_appendL _ _ _ hP2)))

/-- C9: the Step-1 formatting is a deterministic function of the three
request fields: two runs on the same (neighbourhood, crime_concerns,
user_context) input, under arbitrary and possibly different process
environments and randomness seeds, produce byte-identical formatted-query
strings. -/
theorem step1_format_deterministic (env₁ env₂ : String → Option String)
    (seed₁ seed₂ : Nat) (neighbourhood : String) (crime_type user_context : List String) :
    formattedUserInputInProcess env₁ seed₁ neighbourhood crime_type user_context =
      formattedUserInputInProcess env₂ seed₂ neighbourhood crime_type user_context :=
  rfl

/-- Every window produced by the splitter has at most chunk_size characters. -/
theorem splitWindows_length_le (s : List Char) :
    ∀ c ∈ splitWindows s, c.length ≤ chunk_size := by
  induction s using splitWindows.induct with
  | case1 s h =>
    intro c hc
    rw [splitWindows, dif_pos h] at hc
    simp at hc
    simpa [hc] using h
  | case2 s h ih =>
    intro c hc
    rw [splitWindows, dif_neg h] at hc
    rcases List.mem_cons.mp hc with hc | hc
    · simpa [hc, List.length_take] using Nat.min_le_left _ _
    · exact ih c hc

/-- The first window is the first chunk_size characters of the text. -/
theorem splitWindows_head (s : List Char) :
    (splitWindows s).head? = some (s.take chunk_size) := by
  rw [splitWindows]
  by_cases h : s.length ≤ chunk_size
  · rw [dif_pos h]
    simp [List.take_of_length_le h]
  · rw [dif_neg h]
    rfl

/-- Dropping the first chunk_overlap characters of every window and
concatenating yields the text minus its first chunk_overlap characters. -/
theorem splitWindows_flatten_drop (s : List Char) :
    ((splitWindows s).map fun w => w.drop chunk_overlap).flatten = s.drop chunk_overlap := by
  induction s using splitWindows.induct with
  | case1 s h =>
    rw [splitWindows, dif_pos h]
    simp
  | case2 s h ih =>
    rw [splitWindows, dif_neg h]
    simp only [List.map_cons, List.flatten_cons, ih]
    show (s.take chunk_size).drop chunk_overlap ++ (s.drop (chunk_size - chunk_overlap)).drop chunk_overlap = s.drop chunk_overlap
    rw [List.drop_take, List.drop_drop, chunk_size, chunk_overlap]
    show (s.drop 200).take 800 ++ s.drop 1000 = s.drop 200
    have h2 : s.drop 1000 = (s.drop 200).drop 800 := by rw [List.drop_drop]
    rw [h2, List.take_append_drop]

/-- Reassembling the windows with the overlapping prefixes removed gives
back the original text. -/
theorem reconstruct_splitWindows (s : List Char) : reconstruct (splitWindows s) = s := by
  rw [splitWindows]
  by_cases h : s.length ≤ chunk_size
  · rw [dif_pos h]
    simp [reconstruct]
  · rw [dif_neg h]
    simp only [reconstruct, splitWindows_flatten_drop]
    rw [List.drop_drop]
    show s.take chunk_size ++ s.drop (chunk_overlap + (chunk_size - chunk_overlap)) = s
    rw [chunk_size, chunk_overlap]
    show s.take 1000 ++ s.drop 1000 = s
    exact List.take_append_drop 1000 s

/-- Each window after the first starts exactly chunk_size - chunk_overlap
characters after its full-length predecessor: the previous window's last
chunk_overlap characters reappear as the next window's first characters. -/
theorem splitWindows_chain (s : List Char) :
    List.Chain' (fun a b => a.length = chunk_size ∧
      (a.drop (chunk_size - chunk_overlap)).isPrefixOf b = true) (splitWindows s) := by
  induction s using splitWindows.induct with
  | case1 s h =>
    rw [splitWindows, dif_pos h]
    exact List.chain'_singleton s
  | case2 s h ih =>
    rw [splitWindows, dif_neg h]
    refine List.chain'_cons'.mpr ⟨?_, ih⟩
    intro b hb
    rw [splitWindows_head] at hb
    simp only [Option.mem_def, Option.some.injEq] at hb
    subst hb
    constructor
    · simp only [List.length_take]
      omega
    · rw [ List.isPrefixOf_iff_prefix, List.drop_take, chunk_size, chunk_overlap]
      show (s.drop 800).take 200 <+: (s.drop 800).take 1000
      rw [show ((s.drop 800).take 200 : List Char) = ((s.drop 800).take 1000).take 200 by
        rw [List.take_take]; norm_num]
      exact ⟨((s.drop 800).take 1000).drop 200, List.take_append_drop _ _⟩

/-- C5: for a document longer than the window size W = 1000 with overlap
O = 200, the splitting step produces contiguous windows of length at most
W in which every window after the first begins exactly W - O characters
after its predecessor (hence at most O characters before the predecessor's
end, whose length is W), and concatenating the windows with the
overlapping prefixes removed reconstructs the document text. The
splitting itself is delegated to a third-party library, so splitWindows is
modelled from the spec (see its doc comment). -/
theorem chunking_invariant (s : List Char) (hL : chunk_size < s.length) :
    (∀ c ∈ splitWindows s, c.length ≤ chunk_size) ∧
      List.Chain' (fun a b => a.length = chunk_size ∧
        (a.drop (chunk_size - chunk_overlap)).isPrefixOf b = true) (splitWindows s) ∧
      reconstruct (splitWindows s) = s :=
  ⟨splitWindows_length_le s, splitWindows_chain s, reconstruct_splitWindows s⟩

theorem chunking_invariant_witness :
    chunk_size < (List.replicate 1001 'a').length ∧
      reconstruct (splitWindows (List.replicate 1001 'a')) = List.replicate 1001 'a' :=
  ⟨by rw [List.length_replicate]; decide,
    (chunking_invariant (List.replicate 1001 'a') (by rw [List.length_replicate]; decide)).2.2⟩

/-- Inside one batch, the loader keeps exactly the well-formed items. -/
theorem filterMap_items_length (items : List RawItem) :
    (items.filterMap fun item =>
        match item.markdown, item.metadata with
        | some md, some meta => some (mkIngestDoc md meta)
        | _, _ => none).length = (items.filter wellFormed).length := by
  induction items with
  | nil => rfl
  | cons it rest ih =>
    cases hm : it.markdown <;> cases hd : it.metadata <;>
      simp [List.filterMap_cons, List.filter_cons, wellFormed, hm, hd, ih]

/-- Removing the malformed items from every batch beforehand does not
change what the loader returns. -/
theorem load_json_data_drops_malformed_items (items : List RawItem) :
    (items.filterMap fun item =>
        match item.markdown, item.metadata with
        | some md, some meta => some (mkIngestDoc md meta)
        | _, _ => none) =
      ((items.filter wellFormed).filterMap fun item =>
        match item.markdown, item.metadata with
        | some md, some meta => some (mkIngestDoc md meta)
        | _, _ => none) := by
  induction items with
  | nil => rfl
  | cons it rest ih =>
    cases hm : it.markdown <;> cases hd : it.metadata <;>
      simp [List.filterMap_cons, List.filter_cons, wellFormed, hm, hd, ih]

/-- C6: for every corpus, the loading step returns exactly as many source
documents as there are well-formed items (those having both a markdown
and a metadata field), across all batches; malformed items are silently
dropped (removing them beforehand changes nothing), and the loader is a
total function, so no error is raised. -/
theorem load_json_data_graceful_skip (batches : List CrawlBatch) :
    (load_json_data batches).length =
        (batches.map fun b => ((b.data.getD []).filter wellFormed).length).sum ∧
      load_json_data batches =
        load_json_data (batches.map fun b =>
          { data := some ((b.data.getD []).filter wellFormed) }) := by
  constructor
  · induction batches with
    | nil => rfl
    | cons b rest ih =>
      cases hb : b.data <;>
        simp [load_json_data, List.flatMap_cons, hb, filterMap_items_length, ← ih,
          load_json_data]
  · induction batches with
    | nil => rfl
    | cons b rest ih =>
      simp only [load_json_data, List.map_cons, List.flatMap_cons] at ih ⊢
      cases hb : b.data <;>
        simp [hb, ← load_json_data_drops_malformed_items, ih]

/-- C7: when the PINECONE_INDEX_NAME environment variable is absent, both
entry points fail at startup with a descriptive error and the run issues
no network call: main of src/2_ingestion.py raises its ValueError before
loading or ingesting anything, and generate_safety_plan's component
initialization raises a KeyError before any retrieval or model call. -/
theorem missing_index_name_fails_fast (env : String → Option String)
    (corpus : List CrawlBatch) (henv : env "PINECONE_INDEX_NAME" = none) :
    ((ingestMain env corpus).error =
        some "PINECONE_INDEX_NAME not found in environment variables" ∧
      (ingestMain env corpus).networkCalls = []) ∧
      ((generatorInit env).error = some "KeyError: PINECONE_INDEX_NAME" ∧
        (generatorInit env).networkCalls = []) := by
  simp [ingestMain, generatorInit, henv]

theorem missing_index_name_fails_fast_witness :
    (((ingestMain (fun _ => none) []).error =
        some "PINECONE_INDEX_NAME not found in environment variables" ∧
      (ingestMain (fun _ => none) []).networkCalls = []) ∧
      ((generatorInit (fun _ => none)).error = some "KeyError: PINECONE_INDEX_NAME" ∧
        (generatorInit (fun _ => none)).networkCalls = [])) :=
  missing_index_name_fails_fast (fun _ => none) [] rfl

/-- Unfolding: a successful attempt returns its result at once. -/
theorem crawlAttempts_ok {α : Type} (oracle : Nat → CrawlOutcome α) (r attempt : Nat)
    (sl : List Nat) (res : α) (h : oracle attempt = CrawlOutcome.ok res) :
    crawlAttempts oracle (r + 1) attempt sl =
      { attemptsMade := attempt + 1, sleeps := sl, result := some res } := by
  simp [crawlAttempts, h]

/-- Unfolding: a 429-type error with fuel remaining sleeps and retries. -/
theorem crawlAttempts_err429_retry {α : Type} (oracle : Nat → CrawlOutcome α) (r attempt : Nat)
    (sl : List Nat) (m : String) (h : oracle attempt = CrawlOutcome.err m)
    (h4 : has429 m = true) (hr : 0 < r) :
    crawlAttempts oracle (r + 1) attempt sl =
      crawlAttempts oracle r (attempt + 1) (sl ++ [extract_wait_time m + 60]) := by
  simp [crawlAttempts, h, h4, hr]

/-- Unfolding: a 429-type error on the final attempt gives up. -/
theorem crawlAttempts_err429_last {α : Type} (oracle : Nat → CrawlOutcome α) (r attempt : Nat)
    (sl : List Nat) (m : String) (h : oracle attempt = CrawlOutcome.err m)
    (h4 : has429 m = true) (hr : ¬ 0 < r) :
    crawlAttempts oracle (r + 1) attempt sl =
      { attemptsMade := attempt + 1, sleeps := sl, result := none } := by
  simp [crawlAttempts, h, h4, hr]

/-- Unfolding: any non-429 error gives up immediately. -/
theorem crawlAttempts_err_other {α : Type} (oracle : Nat → CrawlOutcome α) (r attempt : Nat)
    (sl : List Nat) (m : String) (h : oracle attempt = CrawlOutcome.err m)
    (h4 : has429 m = false) :
    crawlAttempts oracle (r + 1) attempt sl =
      { attemptsMade := attempt + 1, sleeps := sl, result := none } := by
  simp [crawlAttempts, h, h4]

/-- Invariant of the retry loop: starting at a given attempt index with
fuel r and already-performed sleeps sl, at most r further attempts are
made, and every sleep added beyond sl is extract_wait_time(m) + 60 for
the 429-type error message m of the corresponding attempt. -/
theorem crawlAttempts_spec {α : Type} (oracle : Nat → CrawlOutcome α) :
    ∀ (r attempt : Nat) (sl : List Nat),
      (crawlAttempts oracle r attempt sl).attemptsMade ≤ attempt + r ∧
        ∃ extra, (crawlAttempts oracle r attempt sl).sleeps = sl ++ extra ∧
          ∀ j, j < extra.length → ∃ m, oracle (attempt + j) = CrawlOutcome.err m ∧
            has429 m = true ∧ extra[j]? = some (extract_wait_time m + 60) := by
  intro r
  induction r with
  | zero =>
    intro attempt sl
    exact ⟨Nat.le_refl _, [], by simp [crawlAttempts], by simp⟩
  | succ r ih =>
    intro attempt sl
    cases horacle : oracle attempt with
    | ok res =>
      rw [crawlAttempts_ok oracle r attempt sl res horacle]
      exact ⟨by show attempt + 1 ≤ attempt + (r + 1); omega, [], by simp, by simp⟩
    | err m =>
      by_cases h429 : has429 m
      · by_cases hr : 0 < r
        · rw [crawlAttempts_err429_retry oracle r attempt sl m horacle h429 hr]
          rcases ih (attempt + 1) (sl ++ [extract_wait_time m + 60]) with ⟨hle, extra, hsl, hprop⟩
          refine ⟨by omega, (extract_wait_time m + 60) :: extra, by simpa using hsl, ?_⟩
          intro j hj
          cases j with
          | zero => exact ⟨m, by simpa using horacle, h429, by simp⟩
          | succ j' =>
            rcases hprop j' (by simpa using Nat.lt_of_succ_lt_succ hj) with ⟨m', hm', h4', hs'⟩
            exact ⟨m', by rw [show attempt + (j' + 1) = attempt + 1 + j' by omega]; exact hm',
              h4', by simpa using hs'⟩
        · rw [crawlAttempts_err429_last oracle r attempt sl m horacle h429 hr]
          exact ⟨by show attempt + 1 ≤ attempt + (r + 1); omega, [], by simp, by simp⟩
      · rw [crawlAttempts_err_other oracle r attempt sl m horacle
          (by simpa using h429)]
        exact ⟨by show attempt + 1 ≤ attempt + (r + 1); omega, [], by simp, by simp⟩

/-- C8 counterexample: for a crawl whose every attempt fails with the
rate-limit message "429 Too Many Requests, please retry after 30s", the
extracted duration is 30 seconds, yet each wait performed by the code is
90 seconds (the extracted 30 plus a 60-second buffer added at line 143 of
1_informationretreival.py) — neither the extracted duration nor the
default 60 claimed by the spec. -/
theorem crawler_wait_counterexample :
    extract_wait_time "429 Too Many Requests, please retry after 30s" = 30 ∧
      (crawl_with_retry (fun _ =>
          (CrawlOutcome.err "429 Too Many Requests, please retry after 30s" :
            CrawlOutcome Unit))).sleeps = [90, 90] ∧
      ¬ ∀ s ∈ (crawl_with_retry (fun _ =>
          (CrawlOutcome.err "429 Too Many Requests, please retry after 30s" :
            CrawlOutcome Unit))).sleeps,
          s = extract_wait_time "429 Too Many Requests, please retry after 30s" ∨ s = 60 := by
  refine ⟨by decide, by decide, ?_⟩
  intro hall
  have h90 := hall 90 (by decide)
  revert h90
  decide

/-- C8 (amended): for every URL whose crawl raises 429-type errors, the
crawler makes at most max_retries = 3 attempts; between consecutive
attempts it waits the duration extracted from the error message (default
60 seconds when none can be extracted) plus a 60-second buffer; and when
the retries are exhausted, that URL contributes no result and the
module-level loop continues with the remaining URLs unchanged. -/
theorem crawler_retry_policy {α : Type} (oracle : Nat → CrawlOutcome α)
    (pre post : List (Nat → CrawlOutcome α)) :
    (crawl_with_retry oracle).attemptsMade ≤ max_retries ∧
      (∀ j, j < (crawl_with_retry oracle).sleeps.length →
        ∃ m, oracle j = CrawlOutcome.err m ∧ has429 m = true ∧
          (crawl_with_retry oracle).sleeps[j]? = some (extract_wait_time m + 60)) ∧
      ((crawl_with_retry oracle).result = none →
        crawlLoop (pre ++ oracle :: post) = crawlLoop (pre ++ post)) := by
  rcases crawlAttempts_spec oracle max_retries 0 [] with ⟨hle, extra, hsl, hprop⟩
  refine ⟨by simpa [crawl_with_retry] using hle, ?_, ?_⟩
  · intro j hj
    simp only [crawl_with_retry] at hj ⊢
    rw [hsl] at hj ⊢
    simp only [List.nil_append] at hj ⊢
    simpa using hprop j hj
  · intro hnone
    simp [crawlLoop, List.filterMap_append, List.filterMap_cons, hnone]

theorem crawler_retry_policy_witness :
    (crawl_with_retry (fun _ =>
        (CrawlOutcome.err "server had an internal error" : CrawlOutcome Unit))).attemptsMade ≤
        max_retries ∧
      crawlLoop ([] ++ (fun _ =>
          (CrawlOutcome.err "server had an internal error" : CrawlOutcome Unit)) :: []) =
        crawlLoop ([] ++ ([] : List (Nat → CrawlOutcome Unit))) :=
  ⟨(crawler_retry_policy (fun _ =>
      (CrawlOutcome.err "server had an internal error" : CrawlOutcome Unit)) [] []).1,
    (crawler_retry_policy (fun _ =>
      (CrawlOutcome.err "server had an internal error" : CrawlOutcome Unit)) [] []).2.2
      (by decide)⟩

theorem substrOf_self (p : String) : substrOf p p :=
  ⟨[], [], by simp⟩

/-- When the separator does not occur, Python split(sep)[0] is the whole
string. -/
theorem splitFirstL_no_occ (sep s : List Char) (h : containsSub sep s = false) :
    splitFirstL sep s = s := by
  induction s with
  | nil => rfl
  | cons c rest ih =>
    simp only [containsSub, Bool.or_eq_false_iff] at h
    rw [splitFirstL, if_neg (by simp [h.1]), ih h.2]

/-- When the separator occurs, the string decomposes as the split prefix,
the separator, and a remainder. -/
theorem splitFirstL_occ (sep s : List Char) (h : containsSub sep s = true) :
    ∃ y, s = splitFirstL sep s ++ sep ++ y := by
  induction s with
  | nil =>
    simp only [containsSub, List.isPrefixOf_iff_prefix] at h
    rcases h with ⟨t, ht⟩
    have hsep : sep = [] := (List.append_eq_nil.mp ht).1
    exact ⟨[], by simp [splitFirstL, hsep]⟩
  | cons c rest ih =>
    rw [splitFirstL]
    by_cases hp : sep.isPrefixOf (c :: rest)
    · rw [if_pos hp]
      rcases List.isPrefixOf_iff_prefix.mp hp with ⟨t, ht⟩
      exact ⟨t, by simp [← ht]⟩
    · rw [if_neg hp]
      have h' : containsSub sep rest = true := by
        simp only [containsSub, Bool.or_eq_true] at h
        rcases h with h | h
        · exact absurd h hp
        · exact h
      rcases ih h' with ⟨y, hy⟩
      exact ⟨y, by rw [List.cons_append, List.cons_append, ← hy]⟩

/-- The split prefix is the shortest prefix preceding an occurrence of the
separator: the occurrence found is the first one. -/
theorem splitFirstL_min (sep s x y : List Char) (hxy : s = x ++ sep ++ y) :
    (splitFirstL sep s).length ≤ x.length := by
  induction s generalizing x y with
  | nil => simp [splitFirstL]
  | cons c rest ih =>
    rw [splitFirstL]
    by_cases hp : sep.isPrefixOf (c :: rest)
    · rw [if_pos hp]
      simp
    · rw [if_neg hp]
      cases x with
      | nil =>
        exact absurd ( List.isPrefixOf_iff_prefix.mpr ⟨y, by simpa using hxy.symm⟩) hp
      | cons x0 x' =>
        have hx : c = x0 ∧ rest = x' ++ (sep ++ y) := by simpa using hxy
        simp only [List.length_cons]
        exact Nat.succ_le_succ (ih x' y (by simp [hx.2]))

/-- C10: in the single-chain generator, the plan body embedded in the
assembled response is the model's answer truncated at the first occurrence
of the marker "Sources Consulted:" and stripped of surrounding whitespace;
any source list the model emitted after the marker is removed, and when
the marker is absent the whole answer is kept, changed only by the
whitespace stripping. The body so computed is embedded verbatim in the
assembled plan string. -/
theorem single_chain_plan_body (answer : String) :
    (¬ substrOf sourcesMarker answer → spgPlanBody answer = pyStripStr answer) ∧
      (substrOf sourcesMarker answer →
        ∃ a b : List Char,
          answer.data = a ++ sourcesMarker.data ++ b ∧
            spgPlanBody answer = pyStripStr (String.mk a) ∧
            ∀ a' b' : List Char,
              answer.data = a' ++ sourcesMarker.data ++ b' → a.length ≤ a'.length) ∧
      ∀ (neighbourhood : String) (crime_concerns : List String) (ctx : List RetrievedDoc),
        substrOf (spgPlanBody answer)
          (spgPlanString neighbourhood crime_concerns answer ctx) := by
  refine ⟨?_, ?_, ?_⟩
  · intro hno
    cases hscan : containsSub sourcesMarker.data answer.data with
    | true => exact absurd (substrOf_of_scan _ _ hscan) hno
    | false => simp [spgPlanBody, splitFirstL_no_occ _ _ hscan, pyStripStr]
  · intro hyes
    have hscan : containsSub sourcesMarker.data answer.data = true :=
      (containsSub_iff _ _).mpr hyes
    rcases splitFirstL_occ _ _ hscan with ⟨y, hy⟩
    refine ⟨splitFirstL sourcesMarker.data answer.data, y, hy, rfl, ?_⟩
    intro a' b' h'
    exact splitFirstL_min _ _ a' b' h'
  · intro neighbourhood crime_concerns ctx
    simp only [spgPlanString]
    exact substrOf_appendL _ _ _ (substrOf_appendL _ _ _ (substrOf_appendL _ _ _
      (substrOf_appendR _ _ _ (substrOf_self _))))

theorem single_chain_plan_body_witness :
    ∃ a b : List Char,
      ("The plan.\n\nSources Consulted:\n- Guide (https://tps.ca/g)" : String).data =
          a ++ sourcesMarker.data ++ b ∧
        spgPlanBody "The plan.\n\nSources Consulted:\n- Guide (https://tps.ca/g)" =
          pyStripStr (String.mk a) ∧
        ∀ a' b' : List Char,
          ("The plan.\n\nSources Consulted:\n- Guide (https://tps.ca/g)" : String).data =
              a' ++ sourcesMarker.data ++ b' → a.length ≤ a'.length :=
  (single_chain_plan_body "The plan.\n\nSources Consulted:\n- Guide (https://tps.ca/g)").2.1
    (substrOf_of_scan _ _ (by decide))
